import Mathlib

/-!
Verification of the WASI host resource layer of `src/include/host/wasi/inode.h`:
the RAII resource holders (`FdHolder`, `DirHolder`, `TimerHolder`), the `INode`
wrapper and the `Poller`.  Each definition embeds the corresponding C++ entity;
where only a declaration appears in the header (the member function bodies live
in a platform translation unit), the definition is modelled from the design
document and is marked as such in its doc comment.

Stateful C++ operations are embedded as explicit state transformers: an
operation on a holder returns the holder states after the call together with
the list of OS handles released (closed/disarmed) during the call, so that
"never released twice" becomes a statement about that list.
-/

namespace WasiInode

/-- Embeds `FdHolder` (inode.h lines 24-45): the held descriptor `int Fd`,
with `-1` as the empty sentinel (default member initializer `int Fd = -1`). -/
structure FdHolderS where
  Fd : Int
deriving DecidableEq, Repr

/-- `FdHolder::ok` (line 37): `return Fd >= 0;`. -/
def FdHolderS.ok (h : FdHolderS) : Bool := decide (h.Fd ≥ 0)

/-- Modelled from the spec: `FdHolder::reset` is only declared in the header
(line 38); the design document says reset "releases and nulls, idempotently
(safe on an already-empty holder)" and that the release path closes the
descriptor.  Returns the holder after the call and the descriptors closed. -/
def FdHolderS.reset (h : FdHolderS) : FdHolderS × List Int :=
  if h.Fd ≥ 0 then (⟨-1⟩, [h.Fd]) else (⟨-1⟩, [])

/-- `FdHolder::release` (line 39): `return std::exchange(Fd, -1);` — hands the
descriptor to the caller without closing it. -/
def FdHolderS.release (h : FdHolderS) : FdHolderS × Int := (⟨-1⟩, h.Fd)

/-- `FdHolder::emplace` (lines 40-43): `reset(); Fd = NewFd;`. -/
def FdHolderS.emplace (h : FdHolderS) (NewFd : Int) : FdHolderS × List Int :=
  (⟨NewFd⟩, h.reset.2)

/-- `FdHolder(FdHolder&&)` (line 27): `Fd(std::exchange(RHS.Fd, -1))`.
Returns (constructed holder, moved-from holder); nothing is closed. -/
def FdHolderS.moveCtor (RHS : FdHolderS) : FdHolderS × FdHolderS :=
  (⟨RHS.Fd⟩, ⟨-1⟩)

/-- `FdHolder::operator=(FdHolder&&)` (lines 28-32): `swap(Fd, RHS.Fd)`.
Returns (assigned-to holder, moved-from holder); nothing is closed. -/
def FdHolderS.moveAssign (lhs RHS : FdHolderS) : FdHolderS × FdHolderS :=
  (⟨RHS.Fd⟩, ⟨lhs.Fd⟩)

/-- `FdHolder::operator=(FdHolder&&)` invoked with `&RHS == this`:
`swap(Fd, RHS.Fd)` swaps the member with itself, leaving it unchanged and
closing nothing. -/
def FdHolderS.selfMoveAssign (h : FdHolderS) : FdHolderS × List Int := (h, [])

/-- `~FdHolder` (line 35): `reset()`; the descriptors closed by destruction. -/
def FdHolderS.destroy (h : FdHolderS) : List Int := h.reset.2

/-- `std::swap(a, a)` on `FdHolder`, unfolded to its definition
`T Tmp(std::move(a)); a = std::move(b); b = std::move(Tmp);` with `b` aliasing
`a`, followed by destruction of `Tmp`.  Returns the final `a` and every
descriptor closed during the whole operation. -/
def FdHolderS.selfSwap (a : FdHolderS) : FdHolderS × List Int :=
  let s1 := FdHolderS.moveCtor a
  let s2 := FdHolderS.selfMoveAssign s1.2
  let s3 := FdHolderS.moveAssign s2.1 s1.1
  (s3.1, s2.2 ++ FdHolderS.destroy s3.2)

/-- Embeds `DirHolder` (inode.h lines 47-77): `DIR *Dir = nullptr` (here
`Option Nat`, `none` for `nullptr`), `uint64_t Cookie = 0`, and the aligned
byte buffer `Buffer`. -/
structure DirHolderS where
  Dir : Option Nat
  Cookie : Nat
  Buffer : List Nat
deriving DecidableEq, Repr

/-- `DirHolder::ok` (line 64): `return Dir != nullptr;`. -/
def DirHolderS.ok (d : DirHolderS) : Bool := d.Dir.isSome

/-- Modelled from the spec: `DirHolder::reset` is only declared in the header
(line 66); the design document says reset "releases and nulls, idempotently",
the release path closing the directory stream.  Returns the holder after the
call and the streams closed. -/
def DirHolderS.reset (d : DirHolderS) : DirHolderS × List Nat :=
  match d.Dir with
  | some s => (⟨none, d.Cookie, d.Buffer⟩, [s])
  | none => (d, [])

/-- `DirHolder::emplace` (lines 67-70): `reset(); Dir = NewDir;`. -/
def DirHolderS.emplace (d : DirHolderS) (NewDir : Option Nat) :
    DirHolderS × List Nat :=
  let r := d.reset
  (⟨NewDir, r.1.Cookie, r.1.Buffer⟩, r.2)

/-- `DirHolder(DirHolder&&)` (lines 50-54): all members are first
default-initialized (`Dir = nullptr`, `Cookie = 0`, empty `Buffer`), then the
body swaps `Dir` and `Cookie` only — `Buffer` is not swapped.  Returns
(constructed holder, moved-from holder); nothing is closed. -/
def DirHolderS.moveCtor (RHS : DirHolderS) : DirHolderS × DirHolderS :=
  (⟨RHS.Dir, RHS.Cookie, []⟩, ⟨none, 0, RHS.Buffer⟩)

/-- `DirHolder::operator=(DirHolder&&)` (lines 55-60): swaps `Dir` and
`Cookie` only; each side keeps its own `Buffer`.  Nothing is closed. -/
def DirHolderS.moveAssign (lhs RHS : DirHolderS) : DirHolderS × DirHolderS :=
  (⟨RHS.Dir, RHS.Cookie, lhs.Buffer⟩, ⟨lhs.Dir, lhs.Cookie, RHS.Buffer⟩)

/-- `DirHolder::operator=(DirHolder&&)` with `&RHS == this`: swapping the
members with themselves leaves the holder unchanged and closes nothing. -/
def DirHolderS.selfMoveAssign (d : DirHolderS) : DirHolderS × List Nat := (d, [])

/-- `~DirHolder` (line 65): `reset()`; the streams closed by destruction. -/
def DirHolderS.destroy (d : DirHolderS) : List Nat := d.reset.2

/-- `std::swap(a, a)` on `DirHolder`, unfolded as for `FdHolderS.selfSwap`. -/
def DirHolderS.selfSwap (a : DirHolderS) : DirHolderS × List Nat :=
  let s1 := DirHolderS.moveCtor a
  let s2 := DirHolderS.selfMoveAssign s1.2
  let s3 := DirHolderS.moveAssign s2.1 s1.1
  (s3.1, s2.2 ++ DirHolderS.destroy s3.2)

/-- Embeds `TimerHolder` (inode.h lines 81-103):
`std::optional<timer_t> Id`, default-constructed disengaged. -/
structure TimerHolderS where
  Id : Option Nat
deriving DecidableEq, Repr

/-- Modelled from the spec: `TimerHolder::reset` is only declared in the
header (line 97); the design document says the timer "must be disarmed exactly
once" and reset "releases and nulls, idempotently" — disarm the timer if one
is held, then disengage.  Returns the holder after the call and the timers
disarmed. -/
def TimerHolderS.reset (t : TimerHolderS) : TimerHolderS × List Nat :=
  match t.Id with
  | some i => (⟨none⟩, [i])
  | none => (t, [])

/-- `TimerHolder::emplace` (lines 98-101): `reset(); Id = NewId;` —
assigning a `timer_t` to the `std::optional` engages it with `NewId`. -/
def TimerHolderS.emplace (t : TimerHolderS) (NewId : Nat) :
    TimerHolderS × List Nat :=
  (⟨some NewId⟩, t.reset.2)

/-- `TimerHolder(TimerHolder&&)` (lines 84-87): `Id` is first
default-initialized (disengaged), then the body swaps it with `RHS.Id`.
Returns (constructed holder, moved-from holder); nothing is disarmed. -/
def TimerHolderS.moveCtor (RHS : TimerHolderS) : TimerHolderS × TimerHolderS :=
  (⟨RHS.Id⟩, ⟨none⟩)

/-- `TimerHolder::operator=(TimerHolder&&)` (lines 88-92): `swap(Id, RHS.Id)`.
Nothing is disarmed. -/
def TimerHolderS.moveAssign (lhs RHS : TimerHolderS) :
    TimerHolderS × TimerHolderS :=
  (⟨RHS.Id⟩, ⟨lhs.Id⟩)

/-- `TimerHolder::operator=(TimerHolder&&)` with `&RHS == this`: swapping the
member with itself leaves it unchanged and disarms nothing. -/
def TimerHolderS.selfMoveAssign (t : TimerHolderS) : TimerHolderS × List Nat :=
  (t, [])

/-- `~TimerHolder` (line 96): `reset()`; the timers disarmed by destruction. -/
def TimerHolderS.destroy (t : TimerHolderS) : List Nat := t.reset.2

/-- `std::swap(a, a)` on `TimerHolder`, unfolded as for
`FdHolderS.selfSwap`. -/
def TimerHolderS.selfSwap (a : TimerHolderS) : TimerHolderS × List Nat :=
  let s1 := TimerHolderS.moveCtor a
  let s2 := TimerHolderS.selfMoveAssign s1.2
  let s3 := TimerHolderS.moveAssign s2.1 s1.1
  (s3.1, s2.2 ++ TimerHolderS.destroy s3.2)

/-- Opaque payload standing for `struct stat` (trivially copyable metadata
record cached by `INode`). -/
structure StatT where
  val : Nat
deriving DecidableEq, Repr

/-- Embeds the state of `INode` (inode.h lines 108-506): the `FdHolder` base
subobject (`Fd`), the lazily cached metadata
`mutable std::optional<struct stat> Stat` (line 500), and the `DirHolder Dir`
member (line 502). -/
structure INodeS where
  Fd : Int
  Stat : Option StatT
  Dir : DirHolderS
deriving DecidableEq, Repr

/-- `ok()` on an `INode`, inherited from the `FdHolder` base (line 37). -/
def INodeS.ok (n : INodeS) : Bool := decide (n.Fd ≥ 0)

/-- `INode(INode&&) = default` (line 116): member-wise move — the `FdHolder`
base is move-constructed (`std::exchange(RHS.Fd, -1)`); moving the
`std::optional<struct stat>` leaves the source engaged, and `struct stat` is
trivially copyable so its value is intact; the `DirHolder` member is
move-constructed (swap with default-initialized members).  Returns
(constructed INode, moved-from INode); nothing is closed. -/
def INodeS.moveCtor (RHS : INodeS) : INodeS × INodeS :=
  let fd := FdHolderS.moveCtor ⟨RHS.Fd⟩
  let dir := DirHolderS.moveCtor RHS.Dir
  (⟨fd.1.Fd, RHS.Stat, dir.1⟩, ⟨fd.2.Fd, RHS.Stat, dir.2⟩)

/-- `INode& operator=(INode&&) = default` (line 117): member-wise move
assignment — the `FdHolder` base swaps descriptors; moving the
`std::optional<struct stat>` makes the target hold the source's value while
the source stays engaged with that (trivially copyable) value; the
`DirHolder` member move-assigns (swap of `Dir` and `Cookie`).  Returns
(assigned-to INode, moved-from INode); nothing is closed. -/
def INodeS.moveAssign (lhs RHS : INodeS) : INodeS × INodeS :=
  let fd := FdHolderS.moveAssign ⟨lhs.Fd⟩ ⟨RHS.Fd⟩
  let dir := DirHolderS.moveAssign lhs.Dir RHS.Dir
  (⟨fd.1.Fd, RHS.Stat, dir.1⟩, ⟨fd.2.Fd, RHS.Stat, dir.2⟩)

/-- `~INode`: the implicit destructor destroys the `DirHolder` member and the
`FdHolder` base, whose `reset()` closes the descriptor.  Returns the
descriptors closed. -/
def INodeS.destroy (n : INodeS) : List Int := FdHolderS.destroy ⟨n.Fd⟩

/-- One clock subscription as registered by `Poller::clock`
(inode.h lines 524-527): clock id, timeout, precision, flags, user data. -/
structure ClockSub where
  clock : Nat
  timeout : Nat
  precision : Nat
  flags : Nat
  userdata : Nat
deriving DecidableEq, Repr

/-- Modelled from the spec: the timer-creation phase of `Poller::wait`
(declared at inode.h line 533; `Poller::Timer::create` at lines 547-549, both
bodies in the platform translation unit).  One timer is created per clock
subscription, in order; `create` may fail with a portable error code.  On the
first failure the phase stops: the result carries the error together with the
timers already created before the failure; on success it carries all created
timers. -/
def createTimerLoop (create : ClockSub → Except Nat Nat) :
    List ClockSub → Except (Nat × List Nat) (List Nat)
  | [] => Except.ok []
  | s :: rest =>
    match create s with
    | Except.error e => Except.error (e, [])
    | Except.ok t =>
      match createTimerLoop create rest with
      | Except.error (e, ts) => Except.error (e, t :: ts)
      | Except.ok ts => Except.ok (t :: ts)

/-- Modelled from the spec: `Poller::wait` (inode.h line 533).  Per the design
document, a failure to create a timer for one clock subscription aborts the
whole wait and surfaces that error after tearing down every timer already
created in the same call, and on the success path every timer created during
the call is released when `wait` returns.  Returns
(portable result, timers created during the call, timers released before
returning). -/
def pollerWait (create : ClockSub → Except Nat Nat) (subs : List ClockSub) :
    Except Nat Unit × List Nat × List Nat :=
  match createTimerLoop create subs with
  | Except.error (e, created) => (Except.error e, created, created)
  | Except.ok created => (Except.ok (), created, created)

/-- The state `INode::fdReaddir` works on: the fixed sequence of directory
entries behind the open stream, and the position of the underlying stream
(number of entries already consumed). -/
structure DirStreamS where
  entries : List Nat
  posn : Nat
deriving DecidableEq, Repr

/-- The enumeration state of a directory `INode`: the stream plus
`DirHolder::Cookie` (inode.h line 73), the cursor the stream position
corresponds to. -/
structure ReaddirState where
  stream : DirStreamS
  Cookie : Nat
deriving DecidableEq, Repr

/-- Modelled from the spec: `INode::fdReaddir` (declared at inode.h lines
264-265, body in the platform translation unit).  Per the design document it
fills the caller buffer with entries starting at the given cursor, tracks
which cursor the underlying stream position corresponds to
(`DirHolder::Cookie`) and re-seeks when the requested cursor does not match.
The buffer capacity is counted in entries; the cursor is the entry ordinal.
Returns the updated state and the entries delivered. -/
def fdReaddir (st : ReaddirState) (cap cookie : Nat) :
    ReaddirState × List Nat :=
  let st1 := if st.Cookie = cookie then st
             else ⟨⟨st.stream.entries, cookie⟩, cookie⟩
  let out := (st1.stream.entries.drop st1.stream.posn).take cap
  (⟨⟨st1.stream.entries, st1.stream.posn + out.length⟩, cookie + out.length⟩,
   out)

/-- Modelled from the spec: `INode::pathReadlink` (declared at inode.h lines
383-384 with signature `WasiExpect<void> pathReadlink(std::string Path,
Span<char> Buffer)`).  Per the design document it reads the symlink target,
silently truncating it into an undersized buffer.  The declared return type is
void-or-error; the caller-visible effects are the portable result and the
buffer contents after the call (the copied target, then any untouched
tail bytes). -/
def pathReadlink (target buf : List Nat) : Except Nat Unit × List Nat :=
  (Except.ok (), target.take buf.length ++ buf.drop target.length)

/-- The number of bytes `pathReadlink` writes into the buffer: the whole
target, truncated to the buffer size. -/
def readlinkWritten (target buf : List Nat) : Nat :=
  min target.length buf.length

/-- The state of an open regular-file `INode` as seen by the positioned I/O
verbs: the byte content and the descriptor's current position. -/
structure FileSt where
  content : List Nat
  posn : Nat
deriving DecidableEq, Repr

/-- Byte content after writing `data` at `offset`: the region before `offset`
(zero-padded if the file was shorter), then `data`, then the old tail. -/
def writeAt (content : List Nat) (offset : Nat) (data : List Nat) :
    List Nat :=
  let padded := content ++ List.replicate (offset - content.length) 0
  padded.take offset ++ data ++ padded.drop (offset + data.length)

/-- Modelled from the spec: `INode::fdPread` (declared at inode.h lines
219-220, body in the platform translation unit; `preadv` analogue) — reads at
the explicit offset without using or updating the descriptor's position.
Returns the (unchanged) file state and the bytes read. -/
def fdPread (f : FileSt) (offset len : Nat) : FileSt × List Nat :=
  (f, (f.content.drop offset).take len)

/-- Modelled from the spec: `INode::fdPwrite` (declared at inode.h lines
232-234, body in the platform translation unit; `pwritev` analogue) — writes
at the explicit offset without using or updating the descriptor's position.
Returns the file state and the number of bytes written. -/
def fdPwrite (f : FileSt) (offset : Nat) (data : List Nat) : FileSt × Nat :=
  (⟨writeAt f.content offset data, f.posn⟩, data.length)

/-- Modelled from the spec: `INode::fdTell` (declared at inode.h line 293;
`lseek(fd, 0, SEEK_CUR)` analogue) — returns the current offset only. -/
def fdTell (f : FileSt) : Nat := f.posn

/-- A concrete timer-creation outcome used to exercise `pollerWait`: creation
fails with error code 5 on clock id 1 and succeeds elsewhere. -/
def crDemo : ClockSub → Except Nat Nat :=
  fun s => if s.clock = 1 then Except.error 5 else Except.ok s.clock

/-- A concrete subscription list whose second clock subscription fails under
`crDemo`. -/
def subsDemo : List ClockSub :=
  [⟨0, 0, 0, 0, 0⟩, ⟨1, 0, 0, 0, 0⟩, ⟨2, 0, 0, 0, 0⟩]

/-- If every subscription's timer creation succeeds, the creation phase
succeeds. -/
theorem createTimerLoop_ok (create : ClockSub → Except Nat Nat) :
    ∀ subs : List ClockSub, (∀ s ∈ subs, ∃ t, create s = Except.ok t) →
      ∃ ts, createTimerLoop create subs = Except.ok ts
  | [], _ => ⟨[], rfl⟩
  | s :: rest, h => by
    obtain ⟨t, ht⟩ := h s (List.mem_cons_self _ _)
    obtain ⟨ts, hts⟩ :=
      createTimerLoop_ok create rest (fun x hx => h x (List.mem_cons_of_mem _ hx))
    exact ⟨t :: ts, by simp [createTimerLoop, ht, hts]⟩

/-- If timer creation succeeds on a leading segment and fails on the next
subscription, the creation phase fails with that error. -/
theorem createTimerLoop_error (create : ClockSub → Except Nat Nat) :
    ∀ (pre : List ClockSub) (s : ClockSub) (post : List ClockSub) (e : Nat),
      (∀ x ∈ pre, ∃ t, create x = Except.ok t) → create s = Except.error e →
      ∃ ts, createTimerLoop create (pre ++ s :: post) = Except.error (e, ts)
  | [], s, _, _, _, hs => ⟨[], by simp [createTimerLoop, hs]⟩
  | p :: pre, s, post, e, h, hs => by
    obtain ⟨t, ht⟩ := h p (List.mem_cons_self _ _)
    obtain ⟨ts, hts⟩ := createTimerLoop_error create pre s post e
      (fun x hx => h x (List.mem_cons_of_mem _ hx)) hs
    exact ⟨t :: ts, by simp [createTimerLoop, ht, hts]⟩

/-- C1, counterexample: the claim asserts that after move assignment into a
non-self target the source holder is in the empty sentinel state
(`Fd == -1`), but `FdHolder::operator=(FdHolder&&)` swaps, so move-assigning
`FdHolder{7}` into the distinct target `FdHolder{5}` leaves the source
holding descriptor 5, not `-1`. -/
theorem C1_cex :
    (FdHolderS.moveAssign ⟨5⟩ ⟨7⟩).2.Fd = 5 ∧
    (FdHolderS.moveAssign ⟨5⟩ ⟨7⟩).2.Fd ≠ -1 := by decide

/-- C1, amended: move construction leaves the source holder in the empty
sentinel state (`Fd == -1`, `Dir == nullptr`, `Id` disengaged) and the
destination holds the moved handle; move assignment swaps the two holders'
handles, so the source ends up holding the target's previous handle; in both
operations nothing is released and afterwards each handle is held by exactly
one holder, so destroying both holders never releases a handle twice. -/
theorem C1_thm (a b : FdHolderS) (d e : DirHolderS) (t u : TimerHolderS)
    (hab : a.Fd ≠ b.Fd) :
    (FdHolderS.moveCtor b).2.Fd = -1 ∧
    (FdHolderS.moveCtor b).1.Fd = b.Fd ∧
    (DirHolderS.moveCtor e).2.Dir = none ∧
    (DirHolderS.moveCtor e).1.Dir = e.Dir ∧
    (TimerHolderS.moveCtor u).2.Id = none ∧
    (TimerHolderS.moveCtor u).1.Id = u.Id ∧
    (FdHolderS.moveAssign a b).1.Fd = b.Fd ∧
    (FdHolderS.moveAssign a b).2.Fd = a.Fd ∧
    (DirHolderS.moveAssign d e).1.Dir = e.Dir ∧
    (DirHolderS.moveAssign d e).2.Dir = d.Dir ∧
    (TimerHolderS.moveAssign t u).1.Id = u.Id ∧
    (TimerHolderS.moveAssign t u).2.Id = t.Id ∧
    List.Nodup ((FdHolderS.moveCtor b).1.destroy ++
      (FdHolderS.moveCtor b).2.destroy) ∧
    List.Nodup ((FdHolderS.moveAssign a b).1.destroy ++
      (FdHolderS.moveAssign a b).2.destroy) := by
  refine ⟨rfl, rfl, rfl, rfl, rfl, rfl, rfl, rfl, rfl, rfl, rfl, rfl, ?_, ?_⟩
  · simp only [FdHolderS.moveCtor, FdHolderS.destroy, FdHolderS.reset]
    split_ifs <;> simp
    omega
  · simp only [FdHolderS.moveAssign, FdHolderS.destroy, FdHolderS.reset]
    split_ifs <;> simp [hab, Ne.symm hab]

/-- C1, witness: the amended statement evaluated on concrete holders. -/
theorem C1_wit :
    (FdHolderS.moveCtor ⟨7⟩).2.Fd = -1 ∧
    List.Nodup ((FdHolderS.moveAssign ⟨3⟩ ⟨7⟩).1.destroy ++
      (FdHolderS.moveAssign ⟨3⟩ ⟨7⟩).2.destroy) := by
  have h := C1_thm ⟨3⟩ ⟨7⟩ ⟨some 1, 2, [9]⟩ ⟨some 4, 5, [8]⟩ ⟨some 0⟩ ⟨some 6⟩
    (by decide)
  exact ⟨h.1, h.2.2.2.2.2.2.2.2.2.2.2.2.2⟩

/-- C2, counterexample: the claim asserts that after move-assigning from an
INode holding an open descriptor the moved-from instance has `ok()` false,
but the defaulted move assignment swaps the `FdHolder` base, so an INode
holding descriptor 7 move-assigned into a target holding descriptor 5 ends
up holding descriptor 5 and still reports `ok()` true. -/
theorem C2_cex :
    (INodeS.ok ⟨7, none, ⟨none, 0, []⟩⟩ = true) ∧
    (INodeS.moveAssign ⟨5, none, ⟨none, 0, []⟩⟩ ⟨7, none, ⟨none, 0, []⟩⟩).2.ok
      = true := by decide

/-- C2, amended: after move construction from an INode `I` the moved-from
instance holds the sentinel `-1` and reports `ok()` false, while the new
instance holds `I`'s descriptor; after move assignment into a target the
moved-from instance holds the target's previous descriptor (swap); in either
case each descriptor is held by exactly one instance afterwards, so
destroying both instances closes no descriptor twice. -/
theorem C2_thm (T I : INodeS) (h : T.Fd ≠ I.Fd) :
    (INodeS.moveCtor I).2.ok = false ∧
    (INodeS.moveCtor I).2.Fd = -1 ∧
    (INodeS.moveCtor I).1.Fd = I.Fd ∧
    (INodeS.moveAssign T I).1.Fd = I.Fd ∧
    (INodeS.moveAssign T I).2.Fd = T.Fd ∧
    List.Nodup (INodeS.destroy (INodeS.moveCtor I).1 ++
      INodeS.destroy (INodeS.moveCtor I).2) ∧
    List.Nodup (INodeS.destroy (INodeS.moveAssign T I).1 ++
      INodeS.destroy (INodeS.moveAssign T I).2) := by
  refine ⟨rfl, rfl, rfl, rfl, rfl, ?_, ?_⟩
  · simp only [INodeS.moveCtor, INodeS.destroy, FdHolderS.moveCtor,
      FdHolderS.destroy, FdHolderS.reset]
    split_ifs <;> simp
    omega
  · simp only [INodeS.moveAssign, INodeS.destroy, FdHolderS.moveAssign,
      FdHolderS.destroy, FdHolderS.reset]
    split_ifs <;> simp [h, Ne.symm h]

/-- C2, witness: the amended statement evaluated on concrete INodes. -/
theorem C2_wit :
    (INodeS.moveCtor ⟨7, none, ⟨none, 0, []⟩⟩).2.ok = false ∧
    (INodeS.moveAssign ⟨5, none, ⟨none, 0, []⟩⟩ ⟨7, none, ⟨none, 0, []⟩⟩).2.Fd
      = 5 := by
  have h := C2_thm ⟨5, none, ⟨none, 0, []⟩⟩ ⟨7, none, ⟨none, 0, []⟩⟩ (by decide)
  exact ⟨h.1, h.2.2.2.2.1⟩

/-- C3: every timer created during a `Poller::wait` call is released before
`wait` returns, on both the success path and the failure path; when every
timer creation succeeds the wait succeeds, and when timer creation fails on
one clock subscription after succeeding on all earlier ones, `wait` aborts
and surfaces exactly that error, having released every timer already created
in the same call. -/
theorem C3_thm (create : ClockSub → Except Nat Nat) (subs : List ClockSub) :
    (pollerWait create subs).2.2 = (pollerWait create subs).2.1 ∧
    ((∀ s ∈ subs, ∃ t, create s = Except.ok t) →
      (pollerWait create subs).1 = Except.ok ()) ∧
    (∀ pre s post e, subs = pre ++ s :: post →
      (∀ x ∈ pre, ∃ t, create x = Except.ok t) →
      create s = Except.error e →
      (pollerWait create subs).1 = Except.error e) := by
  refine ⟨?_, ?_, ?_⟩
  · cases hcl : createTimerLoop create subs with
    | error p => obtain ⟨e, created⟩ := p; simp [pollerWait, hcl]
    | ok created => simp [pollerWait, hcl]
  · intro hall
    obtain ⟨ts, hts⟩ := createTimerLoop_ok create subs hall
    simp [pollerWait, hts]
  · intro pre s post e hsubs hpre hs
    subst hsubs
    obtain ⟨ts, hts⟩ := createTimerLoop_error create pre s post e hpre hs
    simp [pollerWait, hts]

/-- C3, witness: under `crDemo` the second subscription of `subsDemo` fails
with error 5; the wait surfaces error 5 and the released timers equal the
created ones. -/
theorem C3_wit :
    (pollerWait crDemo subsDemo).2.2 = (pollerWait crDemo subsDemo).2.1 ∧
    (pollerWait crDemo subsDemo).1 = Except.error 5 := by
  refine ⟨(C3_thm crDemo subsDemo).1, ?_⟩
  refine (C3_thm crDemo subsDemo).2.2 [⟨0, 0, 0, 0, 0⟩] ⟨1, 0, 0, 0, 0⟩
    [⟨2, 0, 0, 0, 0⟩] 5 rfl ?_ rfl
  intro x hx
  have hx0 : x = (⟨0, 0, 0, 0, 0⟩ : ClockSub) := by simpa using hx
  subst hx0
  exact ⟨0, rfl⟩

/-- C4: starting from any enumeration state whose stream position corresponds
to its tracked cookie (the invariant `fdReaddir` maintains), reading at any
cursor returns exactly the directory entries from that cursor onward that fit
the buffer — independent of how far other calls have advanced the stream —
the implementation re-seeking when the requested cursor does not match the
tracked one; the invariant and the entry sequence are preserved, so replay at
a previously used cursor is deterministic, without loss or duplication. -/
theorem C4_thm (st : ReaddirState) (cap cookie : Nat)
    (hinv : st.stream.posn = st.Cookie) :
    (fdReaddir st cap cookie).2 = (st.stream.entries.drop cookie).take cap ∧
    (fdReaddir st cap cookie).1.stream.entries = st.stream.entries ∧
    (fdReaddir st cap cookie).1.stream.posn
      = (fdReaddir st cap cookie).1.Cookie ∧
    (∀ st' : ReaddirState, st'.stream.entries = st.stream.entries →
      st'.stream.posn = st'.Cookie →
      (fdReaddir st' cap cookie).2 = (fdReaddir st cap cookie).2) := by
  have key : ∀ s : ReaddirState, s.stream.posn = s.Cookie →
      (fdReaddir s cap cookie).2 = (s.stream.entries.drop cookie).take cap := by
    intro s hs
    by_cases hc : s.Cookie = cookie
    · simp [fdReaddir, hc, hs.trans hc]
    · simp [fdReaddir, hc]
  refine ⟨key st hinv, ?_, ?_, ?_⟩
  · by_cases hc : st.Cookie = cookie <;> simp [fdReaddir, hc]
  · by_cases hc : st.Cookie = cookie
    · simp [fdReaddir, hc, hinv.trans hc]
    · simp [fdReaddir, hc]
  · intro st' hent hinv'
    rw [key st' hinv', key st hinv, hent]

/-- C4, witness: with the stream already advanced to position 3 (cookie 3),
re-reading at the earlier cursor 1 with room for two entries reproduces
entries 20 and 30. -/
theorem C4_wit :
    (fdReaddir ⟨⟨[10, 20, 30, 40], 3⟩, 3⟩ 2 1).2 = [20, 30] :=
  ((C4_thm ⟨⟨[10, 20, 30, 40], 3⟩, 3⟩ 2 1 rfl).1).trans (by decide)

/-- C5, counterexample: the claim asserts `pathReadlink` reports the number
of bytes actually written, but its declared result type is void-or-error:
two in-scope calls (both buffers smaller than the 5-byte target) write
different byte counts (2 versus 3) yet return identical results, so the
result reports no byte count. -/
theorem C5_cex :
    ([20, 21] : List Nat).length < ([1, 2, 3, 4, 5] : List Nat).length ∧
    ([30, 31, 32] : List Nat).length < ([1, 2, 3, 4, 5] : List Nat).length ∧
    (pathReadlink [1, 2, 3, 4, 5] [20, 21]).1
      = (pathReadlink [1, 2, 3, 4, 5] [30, 31, 32]).1 ∧
    readlinkWritten [1, 2, 3, 4, 5] [20, 21]
      ≠ readlinkWritten [1, 2, 3, 4, 5] [30, 31, 32] :=
  ⟨by decide, by decide, rfl, by decide⟩

/-- C5, amended: for every call to `pathReadlink` with a buffer smaller than
the symlink target, the operation succeeds, silently truncating the target
into the undersized buffer (the buffer afterwards holds exactly the first
buffer-length bytes of the target, so the bytes written equal the buffer
size); the declared void-or-error result does not report the byte count. -/
theorem C5_thm (target buf : List Nat) (hsz : buf.length < target.length) :
    (pathReadlink target buf).1 = Except.ok () ∧
    (pathReadlink target buf).2 = target.take buf.length ∧
    (pathReadlink target buf).2.length = buf.length ∧
    readlinkWritten target buf = buf.length := by
  have hdrop : buf.drop target.length = [] :=
    List.drop_eq_nil_of_le (Nat.le_of_lt hsz)
  refine ⟨rfl, ?_, ?_, ?_⟩
  · simp [pathReadlink, hdrop]
  · simp [pathReadlink, hdrop, List.length_take]
    omega
  · simp [readlinkWritten]
    omega

/-- C5, witness: the amended statement evaluated on a 5-byte target and a
2-byte buffer. -/
theorem C5_wit :
    (pathReadlink [1, 2, 3, 4, 5] [20, 21]).1 = Except.ok () ∧
    (pathReadlink [1, 2, 3, 4, 5] [20, 21]).2 = [1, 2] := by
  have h := C5_thm [1, 2, 3, 4, 5] [20, 21] (by decide)
  exact ⟨h.1, h.2.1.trans (by decide)⟩

/-- C6: `fdPread` and `fdPwrite` act at the explicitly given offset and never
mutate the descriptor's current position — `fdTell` immediately after either
call returns the same offset as immediately before — and the data written by
`fdPwrite` at an offset is read back unchanged by `fdPread` at that offset. -/
theorem C6_thm (f : FileSt) (offset len : Nat) (data : List Nat) :
    fdTell (fdPread f offset len).1 = fdTell f ∧
    fdTell (fdPwrite f offset data).1 = fdTell f ∧
    (fdPread (fdPwrite f offset data).1 offset data.length).2 = data := by
  refine ⟨rfl, rfl, ?_⟩
  show ((writeAt f.content offset data).drop offset).take data.length = data
  unfold writeAt
  have h1 : ((f.content ++
      List.replicate (offset - f.content.length) 0).take offset).length
      = offset := by
    simp [List.length_take, List.length_append, List.length_replicate]
    omega
  rw [List.append_assoc, List.drop_left' h1, List.take_left' rfl]

/-- C7: for every resource holder, `emplace(new-handle)` first releases the
previously held resource (exactly the old handle when one was held, nothing
when the holder was empty) and then stores the new handle, after which the
holder holds the new handle and `ok()` reflects its validity. -/
theorem C7_thm (h : FdHolderS) (NewFd : Int) (d : DirHolderS)
    (NewDir : Option Nat) (t : TimerHolderS) (NewId : Nat) :
    (h.Fd ≥ 0 → (FdHolderS.emplace h NewFd).2 = [h.Fd]) ∧
    (h.Fd < 0 → (FdHolderS.emplace h NewFd).2 = []) ∧
    (FdHolderS.emplace h NewFd).1.Fd = NewFd ∧
    ((FdHolderS.emplace h NewFd).1.ok = true ↔ NewFd ≥ 0) ∧
    (∀ x, d.Dir = some x → (DirHolderS.emplace d NewDir).2 = [x]) ∧
    (d.Dir = none → (DirHolderS.emplace d NewDir).2 = []) ∧
    (DirHolderS.emplace d NewDir).1.Dir = NewDir ∧
    (DirHolderS.emplace d NewDir).1.ok = NewDir.isSome ∧
    (∀ x, t.Id = some x → (TimerHolderS.emplace t NewId).2 = [x]) ∧
    (t.Id = none → (TimerHolderS.emplace t NewId).2 = []) ∧
    (TimerHolderS.emplace t NewId).1.Id = some NewId := by
  refine ⟨?_, ?_, rfl, ?_, ?_, ?_, rfl, rfl, ?_, ?_, rfl⟩
  · intro hge; simp [FdHolderS.emplace, FdHolderS.reset, hge]
  · intro hlt
    have hneg : ¬h.Fd ≥ 0 := by omega
    simp [FdHolderS.emplace, FdHolderS.reset, hneg]
  · simp [FdHolderS.emplace, FdHolderS.ok]
  · intro x hx; simp [DirHolderS.emplace, DirHolderS.reset, hx]
  · intro hx; simp [DirHolderS.emplace, DirHolderS.reset, hx]
  · intro x hx; simp [TimerHolderS.emplace, TimerHolderS.reset, hx]
  · intro hx; simp [TimerHolderS.emplace, TimerHolderS.reset, hx]

/-- C7, witness: `emplace` on concrete full and empty holders. -/
theorem C7_wit :
    (FdHolderS.emplace ⟨5⟩ 6).2 = [5] ∧
    (FdHolderS.emplace ⟨-1⟩ 6).2 = [] ∧
    (DirHolderS.emplace ⟨some 2, 0, []⟩ (some 3)).2 = [2] ∧
    (TimerHolderS.emplace ⟨some 1⟩ 4).2 = [1] := by
  refine ⟨(C7_thm ⟨5⟩ 6 ⟨some 2, 0, []⟩ (some 3) ⟨some 1⟩ 4).1 (by decide),
    (C7_thm ⟨-1⟩ 6 ⟨some 2, 0, []⟩ (some 3) ⟨some 1⟩ 4).2.1 (by decide),
    (C7_thm ⟨5⟩ 6 ⟨some 2, 0, []⟩ (some 3) ⟨some 1⟩ 4).2.2.2.2.1 2 rfl,
    (C7_thm ⟨5⟩ 6 ⟨some 2, 0, []⟩ (some 3) ⟨some 1⟩ 4).2.2.2.2.2.2.2.2.1 1 rfl⟩

/-- C8: for every resource holder in any state, move-assigning the holder to
itself and `std::swap` of the holder with itself leave the held handle
unchanged and release nothing. -/
theorem C8_thm (a : FdHolderS) (d : DirHolderS) (t : TimerHolderS) :
    FdHolderS.selfMoveAssign a = (a, []) ∧
    FdHolderS.selfSwap a = (a, []) ∧
    DirHolderS.selfMoveAssign d = (d, []) ∧
    DirHolderS.selfSwap d = (d, []) ∧
    TimerHolderS.selfMoveAssign t = (t, []) ∧
    TimerHolderS.selfSwap t = (t, []) :=
  ⟨rfl, rfl, rfl, rfl, rfl, rfl⟩

/-- C9: `DirHolder` move construction and move assignment transfer the `Dir`
handle and the `Cookie` but not the `Buffer`: the destination keeps its own
buffer (the default-initialized empty one under move construction) while
inheriting the source's cookie, and the source retains the byte buffer that
the transferred cookie produced. -/
theorem C9_thm (d e : DirHolderS) :
    (DirHolderS.moveCtor e).1.Dir = e.Dir ∧
    (DirHolderS.moveCtor e).1.Cookie = e.Cookie ∧
    (DirHolderS.moveCtor e).1.Buffer = [] ∧
    (DirHolderS.moveCtor e).2.Buffer = e.Buffer ∧
    (DirHolderS.moveAssign d e).1.Dir = e.Dir ∧
    (DirHolderS.moveAssign d e).1.Cookie = e.Cookie ∧
    (DirHolderS.moveAssign d e).1.Buffer = d.Buffer ∧
    (DirHolderS.moveAssign d e).2.Buffer = e.Buffer :=
  ⟨rfl, rfl, rfl, rfl, rfl, rfl, rfl, rfl⟩

/-- C10: after move-constructing from an INode whose metadata cache is
populated, the moved-from INode's `Stat` optional remains engaged with the
old metadata (the defaulted member-wise move does not disengage the source's
`std::optional`), while its descriptor is the empty sentinel `-1` and `ok()`
is false. -/
theorem C10_thm (I : INodeS) (s : StatT) (h : I.Stat = some s) :
    (INodeS.moveCtor I).2.Stat = some s ∧
    (INodeS.moveCtor I).2.Fd = -1 ∧
    (INodeS.moveCtor I).2.ok = false :=
  ⟨h ▸ rfl, rfl, rfl⟩

/-- C10, witness: the statement evaluated on a concrete INode with a
populated metadata cache. -/
theorem C10_wit :
    (INodeS.moveCtor ⟨4, some ⟨9⟩, ⟨none, 0, []⟩⟩).2.Stat = some ⟨9⟩ ∧
    (INodeS.moveCtor ⟨4, some ⟨9⟩, ⟨none, 0, []⟩⟩).2.Fd = -1 :=
  ⟨(C10_thm ⟨4, some ⟨9⟩, ⟨none, 0, []⟩⟩ ⟨9⟩ rfl).1,
   (C10_thm ⟨4, some ⟨9⟩, ⟨none, 0, []⟩⟩ ⟨9⟩ rfl).2.1⟩

end WasiInode
